import Mathlib

/-!
Shallow embedding of the form widget in src/src/App.tsx (standalone variant)
and src/unnamed/part_000 (host-integrated variant): the zod form schema, the
submit handler, the field-change handler, JSON serialization of the payload,
browser btoa, and the host SDK context wiring. Side effects are made explicit
as an event trace emitted by the handlers.
-/

namespace FormVenus

/-- One inline error entry: a zod issue mapped to its top-level path and
message, as in `error.path[0]` / `error.message`. -/
structure FormError where
  path : String
  message : String
  deriving DecidableEq, Repr

/-- Checkbox state of the three target environments, in the key order of the
zod schema object. -/
structure Environments where
  production : Bool
  staging : Bool
  development : Bool
  deriving DecidableEq, Repr

/-- Checkbox state of the three locales, in the key order of the zod schema
object (keys en-us, fr-fr, es). -/
structure Locales where
  enUs : Bool
  frFr : Bool
  es : Bool
  deriving DecidableEq, Repr

/-- Form values of the standalone widget: variant, entry UID and content type
are plain strings there. -/
structure FormValues where
  environments : Environments
  locales : Locales
  variant : String
  entryUid : String
  contentType : String
  deriving DecidableEq, Repr

/-- Object.values(environments).some(Boolean), the zod refine condition. -/
def Environments.someSelected (e : Environments) : Bool :=
  e.production || e.staging || e.development

/-- Object.values(locales).some(Boolean), the zod refine condition. -/
def Locales.someSelected (l : Locales) : Bool :=
  l.enUs || l.frFr || l.es

/-- formSchema.safeParse of the standalone widget, returning the issues in
schema field order, already mapped to top-level path and message the way
handleButtonClick maps them. Parsing succeeds exactly when the list is empty. -/
def validateForm (v : FormValues) : List FormError :=
  (if v.environments.someSelected then []
   else [⟨"environments", "Please select at least one environment"⟩]) ++
  (if v.locales.someSelected then []
   else [⟨"locales", "Please select at least one locale"⟩]) ++
  (if v.variant.length ≥ 1 then [] else [⟨"variant", "Please select a variant"⟩]) ++
  (if v.entryUid.length ≥ 1 then [] else [⟨"entryUid", "Entry UID is required"⟩]) ++
  (if v.contentType.length ≥ 1 then [] else [⟨"contentType", "Content Type is required"⟩])

/-- Object.entries of the environments object, in key insertion order. -/
def Environments.entries (e : Environments) : List (String × Bool) :=
  [("production", e.production), ("staging", e.staging), ("development", e.development)]

/-- Object.entries of the locales object, in key insertion order. -/
def Locales.entries (l : Locales) : List (String × Bool) :=
  [("en-us", l.enUs), ("fr-fr", l.frFr), ("es", l.es)]

/-- The result object built on the success branch of the standalone widget. -/
structure Payload where
  environments : List String
  locales : List String
  variant : String
  entryUid : String
  contentType : String
  deriving DecidableEq, Repr

/-- The `result` object of handleButtonClick: Object.entries filtered to the
selected entries and mapped to their keys, the rest passed through. -/
def buildResult (v : FormValues) : Payload :=
  { environments := (v.environments.entries.filter (fun p => p.2)).map (fun p => p.1)
    locales := (v.locales.entries.filter (fun p => p.2)).map (fun p => p.1)
    variant := v.variant
    entryUid := v.entryUid
    contentType := v.contentType }

/-- Lower-case hex digit of a value below 16, as JSON.stringify prints in
unicode escapes. -/
def hexDigit (n : Nat) : Char :=
  if n < 10 then Char.ofNat (48 + n) else Char.ofNat (87 + n)

/-- Escaping of one character inside a JSON string, following JSON.stringify:
quote, backslash and the named control escapes, then unicode escapes for the
remaining control characters. -/
def jsonEscapeChar (c : Char) : String :=
  if c = '"' then "\\\""
  else if c = '\\' then "\\\\"
  else if c = '\x08' then "\\b"
  else if c = '\t' then "\\t"
  else if c = '\n' then "\\n"
  else if c = '\x0c' then "\\f"
  else if c = '\r' then "\\r"
  else if c.toNat < 32 then "\\u00" ++ String.mk [hexDigit (c.toNat / 16), hexDigit (c.toNat % 16)]
  else String.mk [c]

/-- JSON escaping of a whole string. -/
def jsonEscape (s : String) : String :=
  String.join (s.toList.map jsonEscapeChar)

/-- A JSON string literal. -/
def jsonString (s : String) : String := "\"" ++ jsonEscape s ++ "\""

/-- A JSON array of string literals. -/
def jsonStringArray (xs : List String) : String :=
  "[" ++ String.intercalate "," (xs.map jsonString) ++ "]"

/-- JSON.stringify of the standalone payload, keys in construction order. -/
def serializePayload (p : Payload) : String :=
  "\x7b\"environments\":" ++ jsonStringArray p.environments ++
  ",\"locales\":" ++ jsonStringArray p.locales ++
  ",\"variant\":" ++ jsonString p.variant ++
  ",\"entryUid\":" ++ jsonString p.entryUid ++
  ",\"contentType\":" ++ jsonString p.contentType ++ "\x7d"

/-- The Base64 alphabet character of a 6-bit value. -/
def base64Char (n : Nat) : Char :=
  if n < 26 then Char.ofNat (65 + n)
  else if n < 52 then Char.ofNat (97 + (n - 26))
  else if n < 62 then Char.ofNat (48 + (n - 52))
  else if n = 62 then '+' else '/'

/-- Base64 of a byte list, with padding. -/
def base64Encode : List Nat → String
  | [] => ""
  | [a] =>
      String.mk [base64Char (a / 4), base64Char ((a % 4) * 16)] ++ "=="
  | [a, b] =>
      String.mk [base64Char (a / 4), base64Char ((a % 4) * 16 + b / 16),
                 base64Char ((b % 16) * 4)] ++ "="
  | a :: b :: c :: rest =>
      String.mk [base64Char (a / 4), base64Char ((a % 4) * 16 + b / 16),
                 base64Char ((b % 16) * 4 + c / 64), base64Char (c % 64)] ++
      base64Encode rest

/-- Browser btoa on a Latin-1 string: Base64 of the character codes. The
ciphertext strings fed to it by the widget are ASCII. -/
def btoa (s : String) : String := base64Encode (s.toList.map Char.toNat)

/-- One observable step of a submit handler, in the order the code performs
them: host alert, schema validation, setFormErrors, JSON.stringify,
CryptoJS.AES.encrypt(...).toString(), window.open. -/
inductive Event where
  | alert (msg : String)
  | validate (ok : Bool)
  | setErrors (errs : List FormError)
  | serialize (s : String)
  | encrypted (c : String)
  | openTab (url : String)
  deriving DecidableEq, Repr

/-- Component state of the standalone widget: the form values held by
react-hook-form and the formErrors useState list. -/
structure AppState where
  values : FormValues
  formErrors : List FormError
  deriving DecidableEq, Repr

/-- Address the standalone widget opens, up to the data query value. -/
def mainUrlBase : String := "https://demo-graph.contentstackapps.com?data="

/-- handleButtonClick of the standalone widget, instrumented with an event
trace. `aes` abstracts CryptoJS.AES.encrypt(plain, secret).toString() and
`secret` the VITE_APP_ENCRYPT_SECRET environment value. -/
def handleButtonClick (aes : String → String → String) (secret : String)
    (st : AppState) : AppState × List Event :=
  let errs := validateForm st.values
  if errs = [] then
    let plain := serializePayload (buildResult st.values)
    let cipher := aes secret plain
    ({ st with formErrors := [] },
      [Event.validate true, Event.setErrors [], Event.serialize plain,
       Event.encrypted cipher, Event.openTab (mainUrlBase ++ btoa cipher)])
  else
    ({ st with formErrors := errs },
      [Event.validate false, Event.setErrors errs])

/-- handleFieldChange: keeps only the error entries whose path differs from
the changed field. -/
def handleFieldChange (fieldName : String) (st : AppState) : AppState :=
  { st with formErrors := st.formErrors.filter (fun e => e.path != fieldName) }

/-- URLs passed to window.open in a trace. -/
def openedUrls (evs : List Event) : List String :=
  evs.filterMap (fun e => match e with | Event.openTab u => some u | _ => none)

/-- Outward-facing side effects in a trace: browser alerts and opened tabs. -/
def outwardEffects (evs : List Event) : List Event :=
  evs.filter (fun e => match e with
    | Event.alert _ => true
    | Event.openTab _ => true
    | _ => false)

/-- The variant option object of the host-integrated widget. -/
structure Variant where
  id : Int
  label : String
  value : String
  deriving DecidableEq, Repr

/-- Form values of the host-integrated widget: only environments, locales and
the variant object live in the form schema there. -/
structure HostFormValues where
  environments : Environments
  locales : Locales
  variant : Variant
  deriving DecidableEq, Repr

/-- formSchema.safeParse of the host-integrated widget, issues in schema
order; the variant object checks label then value, both with the same
top-level path. -/
def validateHostForm (v : HostFormValues) : List FormError :=
  (if v.environments.someSelected then []
   else [⟨"environments", "Please select at least one environment"⟩]) ++
  (if v.locales.someSelected then []
   else [⟨"locales", "Please select at least one locale"⟩]) ++
  (if v.variant.label.length ≥ 1 then [] else [⟨"variant", "Variant is required"⟩]) ++
  (if v.variant.value.length ≥ 1 then [] else [⟨"variant", "Variant is required"⟩])

/-- The result object of the host-integrated widget. -/
structure HostPayload where
  environments : List String
  locales : List String
  variant : Variant
  entryUid : String
  contentType : String
  stackAPI : String
  deriving DecidableEq, Repr

/-- Component state of the host-integrated widget: form values plus the three
useState strings fed from the host SDK, and the formErrors list. -/
structure HostState where
  values : HostFormValues
  entryUid : String
  contentType : String
  stackAPI : String
  formErrors : List FormError
  deriving DecidableEq, Repr

/-- The `result` object of the host-integrated handleButtonClick. -/
def hostBuildResult (st : HostState) : HostPayload :=
  { environments := (st.values.environments.entries.filter (fun p => p.2)).map (fun p => p.1)
    locales := (st.values.locales.entries.filter (fun p => p.2)).map (fun p => p.1)
    variant := st.values.variant
    entryUid := st.entryUid
    contentType := st.contentType
    stackAPI := st.stackAPI }

/-- JSON.stringify of the variant object, keys in declaration order. -/
def jsonVariant (v : Variant) : String :=
  "\x7b\"id\":" ++ toString v.id ++ ",\"label\":" ++ jsonString v.label ++
  ",\"value\":" ++ jsonString v.value ++ "\x7d"

/-- JSON.stringify of the host payload, keys in construction order. -/
def serializeHostPayload (p : HostPayload) : String :=
  "\x7b\"environments\":" ++ jsonStringArray p.environments ++
  ",\"locales\":" ++ jsonStringArray p.locales ++
  ",\"variant\":" ++ jsonVariant p.variant ++
  ",\"entryUid\":" ++ jsonString p.entryUid ++
  ",\"contentType\":" ++ jsonString p.contentType ++
  ",\"stackAPI\":" ++ jsonString p.stackAPI ++ "\x7d"

/-- Address the host-integrated widget opens, up to the data query value. -/
def hostUrlBase : String := "https://demo-graph-refactored.contentstackapps.com/?data="

/-- Message of the alert raised when a host-provided value is missing. -/
def missingHostMsg : String := "Entry Uid or Content type or Stack API could not be retrieved"

/-- handleButtonClick of the host-integrated widget, instrumented with an
event trace: the empty-string guard on the three host values runs first and
returns after an alert; then validation, error clearing, serialization,
encryption and window.open as in the standalone widget. -/
def hostHandleButtonClick (aes : String → String → String) (secret : String)
    (st : HostState) : HostState × List Event :=
  if st.entryUid = "" ∨ st.contentType = "" ∨ st.stackAPI = "" then
    (st, [Event.alert missingHostMsg])
  else
    let errs := validateHostForm st.values
    if errs = [] then
      let plain := serializeHostPayload (hostBuildResult st)
      let cipher := aes secret plain
      ({ st with formErrors := [] },
        [Event.validate true, Event.setErrors [], Event.serialize plain,
         Event.encrypted cipher, Event.openTab (hostUrlBase ++ btoa cipher)])
    else
      ({ st with formErrors := errs },
        [Event.validate false, Event.setErrors errs])

/-- handleFieldChange of the host-integrated widget. -/
def hostHandleFieldChange (fieldName : String) (st : HostState) : HostState :=
  { st with formErrors := st.formErrors.filter (fun e => e.path != fieldName) }

/-- Values exposed by the CMS sidebar context used in the useEffect. -/
structure SidebarContext where
  contentTypeUid : String
  entryUid : String
  stackApiKey : String
  deriving DecidableEq, Repr

/-- The useEffect body after ContentStackAppSDK.init resolves: each useState
string is set from the sidebar context, falling back to the empty string when
the context is absent (the optional chaining plus empty-string fallback). -/
def initHost (ctx : Option SidebarContext) (st : HostState) : HostState :=
  match ctx with
  | some c =>
      { st with contentType := c.contentTypeUid
                entryUid := c.entryUid
                stackAPI := c.stackApiKey }
  | none =>
      { st with contentType := ""
                entryUid := ""
                stackAPI := "" }

/-- Fixed environment key order of the schema object. -/
def envNames : List String := ["production", "staging", "development"]

/-- Fixed locale key order of the schema object. -/
def localeNames : List String := ["en-us", "fr-fr", "es"]

/-- Whether the checkbox of a given environment name is selected. -/
def Environments.checked (e : Environments) : String → Bool
  | "production" => e.production
  | "staging" => e.staging
  | "development" => e.development
  | _ => false

/-- Whether the checkbox of a given locale name is selected. -/
def Locales.checked (l : Locales) : String → Bool
  | "en-us" => l.enUs
  | "fr-fr" => l.frFr
  | "es" => l.es
  | _ => false

/-- Sample selections that pass validation. -/
def demoValues : FormValues :=
  ⟨⟨true, false, false⟩, ⟨true, false, false⟩, "business", "e1", "ct"⟩

/-- Sample widget state holding `demoValues`. -/
def demoState : AppState := ⟨demoValues, []⟩

/-- A second valid sample. -/
def demoValues2 : FormValues :=
  ⟨⟨false, true, true⟩, ⟨false, false, true⟩, "tech", "blt42", "page"⟩

/-- Widget state holding `demoValues2`. -/
def demoState2 : AppState := ⟨demoValues2, []⟩

/-- The default form values: nothing selected, empty strings. -/
def emptyValues : FormValues :=
  ⟨⟨false, false, false⟩, ⟨false, false, false⟩, "", "", ""⟩

/-- Widget state holding `emptyValues`. -/
def emptyState : AppState := ⟨emptyValues, []⟩

/-- Sample host-variant selections that pass validation. -/
def demoHostValues : HostFormValues :=
  ⟨⟨false, true, false⟩, ⟨false, false, true⟩, ⟨1, "Business Audience", "business"⟩⟩

/-- Host state whose entry UID was not retrieved from the host. -/
def blockedHostState : HostState := ⟨demoHostValues, "", "ct", "sk", []⟩

/-- Host state whose content type was not retrieved from the host. -/
def blockedHostState2 : HostState := ⟨demoHostValues, "e9", "", "sk", []⟩

/-- A string has length at least one exactly when it is nonempty. -/
theorem one_le_length_iff (s : String) : 1 ≤ s.length ↔ s ≠ "" := by
  obtain ⟨data⟩ := s
  cases data with
  | nil => simp [String.length]
  | cons a as =>
    refine iff_of_true (Nat.succ_le_succ (Nat.zero_le _)) ?_
    intro h
    simpa using congrArg String.data h

/-- safeParse succeeds exactly when every schema check passes. -/
theorem validateForm_eq_nil_iff (v : FormValues) :
    validateForm v = [] ↔
      (v.environments.someSelected = true ∧ v.locales.someSelected = true ∧
       v.variant ≠ "" ∧ v.entryUid ≠ "" ∧ v.contentType ≠ "") := by
  unfold validateForm
  by_cases h1 : v.environments.someSelected = true <;>
  by_cases h2 : v.locales.someSelected = true <;>
  by_cases h3 : v.variant = "" <;>
  by_cases h4 : v.entryUid = "" <;>
  by_cases h5 : v.contentType = "" <;>
    simp [h1, h2, h3, h4, h5, ge_iff_le, one_le_length_iff]

/-- Object.entries filtered to selected keys agrees with filtering the fixed
key order by the checkbox state. -/
theorem env_entries_filter (e : Environments) :
    (e.entries.filter (fun p => p.2)).map (fun p => p.1) = envNames.filter e.checked := by
  obtain ⟨p, s, d⟩ := e
  cases p <;> cases s <;> cases d <;> rfl

/-- Locale analogue of `env_entries_filter`. -/
theorem locale_entries_filter (l : Locales) :
    (l.entries.filter (fun p => p.2)).map (fun p => p.1) = localeNames.filter l.checked := by
  obtain ⟨a, b, c⟩ := l
  cases a <;> cases b <;> cases c <;> rfl

/-- C1: when the form state passes schema validation, one Submit click opens
exactly one tab, whose URL is the visualization address carrying, in the data
query parameter, the encryption of the JSON serialization of the selections
(as btoa of the ciphertext). -/
theorem submit_valid_opens_single_encrypted_tab
    (aes : String → String → String) (secret : String) (st : AppState)
    (h : validateForm st.values = []) :
    openedUrls (handleButtonClick aes secret st).2 =
      [mainUrlBase ++ btoa (aes secret (serializePayload (buildResult st.values)))] := by
  simp [handleButtonClick, h, openedUrls]

/-- Witness for C1 at `demoState`. -/
theorem submit_valid_opens_single_encrypted_tab_witness :
    validateForm demoValues = [] ∧
    openedUrls (handleButtonClick (fun _ s => s) "k" demoState).2 =
      [mainUrlBase ++ btoa ((fun (_ s : String) => s) "k" (serializePayload (buildResult demoValues)))] :=
  ⟨by decide, submit_valid_opens_single_encrypted_tab (fun _ s => s) "k" demoState (by decide)⟩

/-- C2: a Submit click fails validation, setting a nonempty inline error list
and opening no tab, exactly when some environment is unselected, some locale
is unselected, the variant is empty, the entry UID is empty or the content
type is empty; otherwise validation succeeds. -/
theorem validation_failure_iff_conditions
    (aes : String → String → String) (secret : String) (st : AppState) :
    (validateForm st.values = [] ↔
      (st.values.environments.someSelected = true ∧ st.values.locales.someSelected = true ∧
       st.values.variant ≠ "" ∧ st.values.entryUid ≠ "" ∧ st.values.contentType ≠ "")) ∧
    (validateForm st.values ≠ [] →
      (handleButtonClick aes secret st).1.formErrors = validateForm st.values ∧
      (handleButtonClick aes secret st).1.formErrors ≠ [] ∧
      openedUrls (handleButtonClick aes secret st).2 = []) := by
  refine ⟨validateForm_eq_nil_iff st.values, fun h => ?_⟩
  simp [handleButtonClick, h, openedUrls]

/-- Witness for C2 at `emptyState`. -/
theorem validation_failure_iff_conditions_witness :
    validateForm emptyValues ≠ [] ∧
    ((handleButtonClick (fun _ s => s) "k" emptyState).1.formErrors = validateForm emptyValues ∧
     (handleButtonClick (fun _ s => s) "k" emptyState).1.formErrors ≠ [] ∧
     openedUrls (handleButtonClick (fun _ s => s) "k" emptyState).2 = []) :=
  ⟨by decide, (validation_failure_iff_conditions (fun _ s => s) "k" emptyState).2 (by decide)⟩

/-- C3: the payload's environments field is the selected environment names in
the order production, staging, development; the locales field is the
selected locale names in the order en-us, fr-fr, es; variant, entry UID and
content type pass through unchanged — in both widget variants. -/
theorem payload_fields_spec (v : FormValues) (hst : HostState) :
    (buildResult v).environments = envNames.filter v.environments.checked ∧
    (buildResult v).locales = localeNames.filter v.locales.checked ∧
    (buildResult v).variant = v.variant ∧
    (buildResult v).entryUid = v.entryUid ∧
    (buildResult v).contentType = v.contentType ∧
    (hostBuildResult hst).environments = envNames.filter hst.values.environments.checked ∧
    (hostBuildResult hst).locales = localeNames.filter hst.values.locales.checked ∧
    (hostBuildResult hst).variant = hst.values.variant ∧
    (hostBuildResult hst).entryUid = hst.entryUid ∧
    (hostBuildResult hst).contentType = hst.contentType :=
  ⟨env_entries_filter v.environments, locale_entries_filter v.locales, rfl, rfl, rfl,
   env_entries_filter hst.values.environments, locale_entries_filter hst.values.locales,
   rfl, rfl, rfl⟩

/-- C4: the submit handler first validates; on failure the trace holds no
serialization, encryption or tab-opening step, and on success the trace is
exactly validate, clear errors, serialize, encrypt, open — in that order,
with a single tab-opening. -/
theorem submit_event_order (aes : String → String → String) (secret : String)
    (st : AppState) :
    (validateForm st.values ≠ [] →
      (handleButtonClick aes secret st).2 =
        [Event.validate false, Event.setErrors (validateForm st.values)]) ∧
    (validateForm st.values = [] →
      (handleButtonClick aes secret st).2 =
        [Event.validate true, Event.setErrors [],
         Event.serialize (serializePayload (buildResult st.values)),
         Event.encrypted (aes secret (serializePayload (buildResult st.values))),
         Event.openTab (mainUrlBase ++
           btoa (aes secret (serializePayload (buildResult st.values))))]) := by
  constructor <;> intro h <;> simp [handleButtonClick, h]

/-- Witness for C4 at `demoState2`. -/
theorem submit_event_order_witness :
    validateForm demoValues2 = [] ∧
    (handleButtonClick (fun _ s => s) "k" demoState2).2 =
      [Event.validate true, Event.setErrors [],
       Event.serialize (serializePayload (buildResult demoValues2)),
       Event.encrypted ((fun (_ s : String) => s) "k" (serializePayload (buildResult demoValues2))),
       Event.openTab (mainUrlBase ++
         btoa ((fun (_ s : String) => s) "k" (serializePayload (buildResult demoValues2))))] :=
  ⟨by decide, (submit_event_order (fun _ s => s) "k" demoState2).2 (by decide)⟩

/-- C5 counterexample: a submission attempt in the host-integrated widget
with a missing entry UID fails, yet is reported through a browser alert and
leaves the inline error list untouched — not solely inline error text. -/
theorem alert_on_missing_host_context :
    (hostHandleButtonClick (fun _ s => s) "k" blockedHostState).2 =
      [Event.alert missingHostMsg] ∧
    (hostHandleButtonClick (fun _ s => s) "k" blockedHostState).1 = blockedHostState := by
  decide

/-- C5 amended: validation failures are reported solely by inline error text
with no outward effect; the host-integrated widget additionally reports a
missing host value through a browser alert, leaving state unchanged. -/
theorem failure_reporting (aes : String → String → String) (secret : String)
    (st : AppState) (hst : HostState) :
    (validateForm st.values ≠ [] →
      (handleButtonClick aes secret st).2 =
        [Event.validate false, Event.setErrors (validateForm st.values)] ∧
      outwardEffects (handleButtonClick aes secret st).2 = []) ∧
    ((hst.entryUid = "" ∨ hst.contentType = "" ∨ hst.stackAPI = "") →
      (hostHandleButtonClick aes secret hst).2 = [Event.alert missingHostMsg] ∧
      (hostHandleButtonClick aes secret hst).1 = hst) ∧
    (¬ (hst.entryUid = "" ∨ hst.contentType = "" ∨ hst.stackAPI = "") →
      validateHostForm hst.values ≠ [] →
      (hostHandleButtonClick aes secret hst).2 =
        [Event.validate false, Event.setErrors (validateHostForm hst.values)] ∧
      outwardEffects (hostHandleButtonClick aes secret hst).2 = []) := by
  refine ⟨fun h => ?_, fun hb => ?_, fun hb hv => ?_⟩
  · simp [handleButtonClick, h, outwardEffects]
  · simp [hostHandleButtonClick, hb]
  · simp [hostHandleButtonClick, hb, hv, outwardEffects]

/-- Witness for the amended C5 at `emptyState`. -/
theorem failure_reporting_witness :
    validateForm emptyValues ≠ [] ∧
    ((handleButtonClick (fun _ s => s) "k" emptyState).2 =
       [Event.validate false, Event.setErrors (validateForm emptyValues)] ∧
     outwardEffects (handleButtonClick (fun _ s => s) "k" emptyState).2 = []) :=
  ⟨by decide, (failure_reporting (fun _ s => s) "k" emptyState blockedHostState).1 (by decide)⟩

/-- Host state whose three context strings have not been set by the SDK yet. -/
def startHostState : HostState := ⟨demoHostValues, "x", "y", "z", []⟩

/-- C6: after the SDK init effect, the three host strings (and hence the
entry UID, content type and stack identifier fields of the payload) are
exactly the sidebar-context values, and the handler stops at an alert —
before validation, encryption or tab-opening — when any of them is empty. -/
theorem host_context_in_payload (aes : String → String → String) (secret : String)
    (c : SidebarContext) (st : HostState) :
    ((initHost (some c) st).entryUid = c.entryUid ∧
     (initHost (some c) st).contentType = c.contentTypeUid ∧
     (initHost (some c) st).stackAPI = c.stackApiKey) ∧
    ((hostBuildResult (initHost (some c) st)).entryUid = c.entryUid ∧
     (hostBuildResult (initHost (some c) st)).contentType = c.contentTypeUid ∧
     (hostBuildResult (initHost (some c) st)).stackAPI = c.stackApiKey) ∧
    ((c.entryUid = "" ∨ c.contentTypeUid = "" ∨ c.stackApiKey = "") →
      (hostHandleButtonClick aes secret (initHost (some c) st)).2 =
        [Event.alert missingHostMsg] ∧
      (hostHandleButtonClick aes secret (initHost (some c) st)).1 = initHost (some c) st) := by
  refine ⟨⟨rfl, rfl, rfl⟩, ⟨rfl, rfl, rfl⟩, fun h => ?_⟩
  simp [hostHandleButtonClick, initHost, h]

/-- Witness for C6: a sidebar context with an empty entry UID blocks the
submission at the alert. -/
theorem host_context_in_payload_witness :
    (hostHandleButtonClick (fun _ s => s) "k"
        (initHost (some ⟨"page", "", "sk"⟩) startHostState)).2 =
      [Event.alert missingHostMsg] ∧
    (hostHandleButtonClick (fun _ s => s) "k"
        (initHost (some ⟨"page", "", "sk"⟩) startHostState)).1 =
      initHost (some ⟨"page", "", "sk"⟩) startHostState :=
  (host_context_in_payload (fun _ s => s) "k" ⟨"page", "", "sk"⟩ startHostState).2.2
    (Or.inl rfl)

/-- C7 counterexample: a host-integrated submission with a missing content
type produces a browser alert as its outward effect and opens no URL, so
opening a URL is not the handler's only external side effect. -/
theorem host_alert_not_a_url_effect :
    outwardEffects (hostHandleButtonClick (fun _ s => s) "k" blockedHostState2).2 =
      [Event.alert missingHostMsg] ∧
    openedUrls (hostHandleButtonClick (fun _ s => s) "k" blockedHostState2).2 = [] := by
  decide

/-- Host state whose three context strings are all present. -/
def okHostState : HostState := ⟨demoHostValues, "e1", "ct", "sk", []⟩

/-- C7 amended: each submit handler leaves the form values (and the host
context strings) unchanged, changing only the error list; the standalone
handler's outward effects are exactly its opened URLs — one when validation
succeeds, none when it fails — and the host handler behaves the same except
that a missing host value yields a single alert and no URL. -/
theorem submit_frame_conditions (aes : String → String → String) (secret : String)
    (st : AppState) (hst : HostState) :
    ((handleButtonClick aes secret st).1.values = st.values ∧
     outwardEffects (handleButtonClick aes secret st).2 =
       (openedUrls (handleButtonClick aes secret st).2).map Event.openTab ∧
     (openedUrls (handleButtonClick aes secret st).2).length =
       (if validateForm st.values = [] then 1 else 0)) ∧
    ((hostHandleButtonClick aes secret hst).1.values = hst.values ∧
     (hostHandleButtonClick aes secret hst).1.entryUid = hst.entryUid ∧
     (hostHandleButtonClick aes secret hst).1.contentType = hst.contentType ∧
     (hostHandleButtonClick aes secret hst).1.stackAPI = hst.stackAPI) ∧
    ((hst.entryUid = "" ∨ hst.contentType = "" ∨ hst.stackAPI = "") →
      outwardEffects (hostHandleButtonClick aes secret hst).2 =
        [Event.alert missingHostMsg] ∧
      openedUrls (hostHandleButtonClick aes secret hst).2 = []) ∧
    (¬ (hst.entryUid = "" ∨ hst.contentType = "" ∨ hst.stackAPI = "") →
      outwardEffects (hostHandleButtonClick aes secret hst).2 =
        (openedUrls (hostHandleButtonClick aes secret hst).2).map Event.openTab ∧
      (openedUrls (hostHandleButtonClick aes secret hst).2).length =
        (if validateHostForm hst.values = [] then 1 else 0)) := by
  refine ⟨?_, ?_, fun hb => ?_, fun hb => ?_⟩
  · by_cases hv : validateForm st.values = [] <;>
      simp [handleButtonClick, hv, openedUrls, outwardEffects]
  · by_cases hb : hst.entryUid = "" ∨ hst.contentType = "" ∨ hst.stackAPI = ""
    · simp [hostHandleButtonClick, hb]
    · by_cases hv : validateHostForm hst.values = [] <;>
        simp [hostHandleButtonClick, hb, hv]
  · simp [hostHandleButtonClick, hb, outwardEffects, openedUrls]
  · by_cases hv : validateHostForm hst.values = [] <;>
      simp [hostHandleButtonClick, hb, hv, outwardEffects, openedUrls]

/-- Witness for the amended C7 at `okHostState`. -/
theorem submit_frame_conditions_witness :
    ¬ (okHostState.entryUid = "" ∨ okHostState.contentType = "" ∨ okHostState.stackAPI = "") ∧
    (outwardEffects (hostHandleButtonClick (fun _ s => s) "k" okHostState).2 =
       (openedUrls (hostHandleButtonClick (fun _ s => s) "k" okHostState).2).map Event.openTab ∧
     (openedUrls (hostHandleButtonClick (fun _ s => s) "k" okHostState).2).length =
       (if validateHostForm okHostState.values = [] then 1 else 0)) :=
  ⟨by decide,
   (submit_frame_conditions (fun _ s => s) "k" emptyState okHostState).2.2.2 (by decide)⟩

/-- A third valid sample. -/
def demoValues3 : FormValues :=
  ⟨⟨true, true, false⟩, ⟨true, true, false⟩, "tech", "u7", "blog"⟩

/-- Widget state holding `demoValues3`. -/
def demoState3 : AppState := ⟨demoValues3, []⟩

/-- C8: on a valid submission, the data query value of the opened URL is the
btoa Base64 encoding of the ciphertext the encryption call returned. -/
theorem data_param_is_btoa_of_cipher (aes : String → String → String) (secret : String)
    (st : AppState) (h : validateForm st.values = []) :
    ∃ c, Event.encrypted c ∈ (handleButtonClick aes secret st).2 ∧
      openedUrls (handleButtonClick aes secret st).2 = [mainUrlBase ++ btoa c] := by
  refine ⟨aes secret (serializePayload (buildResult st.values)), ?_, ?_⟩ <;>
    simp [handleButtonClick, h, openedUrls]

/-- Witness for C8 at `demoState3`. -/
theorem data_param_is_btoa_of_cipher_witness :
    validateForm demoValues3 = [] ∧
    (∃ c, Event.encrypted c ∈ (handleButtonClick (fun _ s => s) "k" demoState3).2 ∧
      openedUrls (handleButtonClick (fun _ s => s) "k" demoState3).2 =
        [mainUrlBase ++ btoa c]) :=
  ⟨by decide, data_param_is_btoa_of_cipher (fun _ s => s) "k" demoState3 (by decide)⟩

/-- C9: a field change filters the error list to the entries of other paths:
nothing is added, the kept entries stay in order, and exactly the entries of
the changed field's path are removed. -/
theorem field_change_filters_errors (fieldName : String) (st : AppState) :
    (handleFieldChange fieldName st).values = st.values ∧
    (handleFieldChange fieldName st).formErrors =
      st.formErrors.filter (fun e => e.path != fieldName) ∧
    List.Sublist (handleFieldChange fieldName st).formErrors st.formErrors ∧
    (∀ e, e ∈ (handleFieldChange fieldName st).formErrors ↔
      (e ∈ st.formErrors ∧ e.path ≠ fieldName)) := by
  refine ⟨rfl, rfl, List.filter_sublist _, fun e => ?_⟩
  simp [handleFieldChange, List.mem_filter]

/-- C10: when validation succeeds the error list is reset to empty, and this
reset appears in the trace strictly before the tab-opening step. -/
theorem errors_cleared_before_open (aes : String → String → String) (secret : String)
    (st : AppState) (h : validateForm st.values = []) :
    (handleButtonClick aes secret st).1.formErrors = [] ∧
    (∃ pre post, (handleButtonClick aes secret st).2 = pre ++ Event.setErrors [] :: post ∧
      (∀ u, Event.openTab u ∉ pre) ∧ (∃ u, Event.openTab u ∈ post)) := by
  constructor
  · simp [handleButtonClick, h]
  · refine ⟨[Event.validate true],
      [Event.serialize (serializePayload (buildResult st.values)),
       Event.encrypted (aes secret (serializePayload (buildResult st.values))),
       Event.openTab (mainUrlBase ++
         btoa (aes secret (serializePayload (buildResult st.values))))],
      ?_, ?_, ?_⟩
    · simp [handleButtonClick, h]
    · intro u
      simp
    · exact ⟨mainUrlBase ++
        btoa (aes secret (serializePayload (buildResult st.values))), by simp⟩

/-- Witness for C10 at `demoState`. -/
theorem errors_cleared_before_open_witness :
    validateForm demoValues = [] ∧
    ((handleButtonClick (fun _ s => s) "k" demoState).1.formErrors = [] ∧
     (∃ pre post, (handleButtonClick (fun _ s => s) "k" demoState).2 =
        pre ++ Event.setErrors [] :: post ∧
        (∀ u, Event.openTab u ∉ pre) ∧ (∃ u, Event.openTab u ∈ post))) :=
  ⟨by decide, errors_cleared_before_open (fun _ s => s) "k" demoState (by decide)⟩

end FormVenus
